import Mathlib

/-!
Shallow embedding of the function-call dispatch core of the aipolabs-python SDK:
JSON values, the error taxonomy, the HTTP response handler
(`Aipolabs._handle_response`), the dispatcher (`Aipolabs.handle_function_call`),
the tenacity-style retry executor configured by `retry_config`, the
meta-function parameter validators, and the `FunctionExecutionResult` model.
-/

namespace Aipolabs

/-- JSON values as the transport layer sees them: the payloads produced by
`response.json()` and the parameter dictionaries handed to the dispatcher.
Numbers are modelled as integers (the fields the SDK validates are `int`
fields). Objects are association lists with the keys in insertion order. -/
inductive Json where
  | null : Json
  | bool (b : Bool) : Json
  | num (n : Int) : Json
  | str (s : String) : Json
  | arr (elems : List Json) : Json
  | obj (fields : List (String × Json)) : Json

/-- Python truthiness of a JSON value, as used by the `a or b or c` chain in
the error-message extraction of `_handle_response`. -/
def Json.truthy : Json → Bool
  | .null => false
  | .bool b => b
  | .num n => n != 0
  | .str s => s != ""
  | .arr elems => !elems.isEmpty
  | .obj fields => !fields.isEmpty

/-- Python `str()` of a JSON value (the handler applies `str` to whatever the
message-extraction chain produced). Only the string case matters to the
claims; the rest is a plain rendering. -/
def Json.pyStr : Json → String
  | .null => "None"
  | .bool b => if b then "True" else "False"
  | .num n => toString n
  | .str s => s
  | .arr _ => "[...]"
  | .obj _ => "{...}"

/-- The exceptions the client can raise: the closed taxonomy from
`aipolabs._exceptions` as constructed in `_client.py` (message, status code,
raw body text), plus the httpx transport exceptions named in `retry_config`,
pydantic validation errors (which identify the offending fields), and the
interpreter-level `TypeError` (iterating a non-iterable). -/
inductive PyExc where
  | apiKeyNotFound (message : String) : PyExc
  | validationError (message : String) (statusCode : Nat) (body : String) : PyExc
  | authenticationError (message : String) (statusCode : Nat) (body : String) : PyExc
  | permissionError (message : String) (statusCode : Nat) (body : String) : PyExc
  | notFoundError (message : String) (statusCode : Nat) (body : String) : PyExc
  | rateLimitError (message : String) (statusCode : Nat) (body : String) : PyExc
  | serverError (message : String) (statusCode : Nat) (body : String) : PyExc
  | unknownError (message : String) (statusCode : Nat) (body : String) : PyExc
  | timeoutException (message : String) : PyExc
  | networkError (message : String) : PyExc
  | pydanticValidationError (fields : List String) : PyExc
  | typeError (message : String) : PyExc
deriving DecidableEq, Repr

/-- An HTTP response at the point `_handle_response` inspects it: the status
code, the raw text, and the parsed JSON body. `body = none` models both an
empty `response.content` and a `json.JSONDecodeError` (the handler catches the
latter and proceeds with `response_json = None`). -/
structure Response where
  status : Nat
  body : Option Json
  text : String

/-- Error-message extraction from `_handle_response`: when the parsed body is
a dict, `str(body.get("message") or body.get("error") or response.text)`;
otherwise the raw response text. -/
def errorMessage (r : Response) : String :=
  match r.body with
  | some (Json.obj fields) =>
    match fields.lookup "message" with
    | some m =>
      if m.truthy then m.pyStr
      else match fields.lookup "error" with
        | some e => if e.truthy then e.pyStr else r.text
        | none => r.text
    | none =>
      match fields.lookup "error" with
      | some e => if e.truthy then e.pyStr else r.text
      | none => r.text
  | _ => r.text

/-- `Aipolabs._handle_response` (`_client.py:189`): returns the parsed JSON
body on 200 and otherwise raises the taxonomy error selected by the status
code, following the branch order of the source (200, 401, 403, 404, 400, 429,
5xx, catch-all `UnknownError`). -/
def handle_response (r : Response) : Except PyExc (Option Json) :=
  if r.status = 200 then .ok r.body
  else if r.status = 401 then .error (.authenticationError (errorMessage r) r.status r.text)
  else if r.status = 403 then .error (.permissionError (errorMessage r) r.status r.text)
  else if r.status = 404 then .error (.notFoundError (errorMessage r) r.status r.text)
  else if r.status = 400 then .error (.validationError (errorMessage r) r.status r.text)
  else if r.status = 429 then .error (.rateLimitError (errorMessage r) r.status r.text)
  else if 500 ≤ r.status ∧ r.status < 600 then
    .error (.serverError (errorMessage r) r.status r.text)
  else .error (.unknownError ("Unexpected error occurred. Status code: " ++ toString r.status)
      r.status r.text)

/-- Result of coercing one optional field; the `String` error is the name of
the offending field, as pydantic reports it in the validation-error `loc`. -/
def errKey {α : Type} : Except String α → List String
  | .error k => [k]
  | .ok _ => []

/-- Optional `str | None` field of a pydantic model: absent key means the
field stays unset (outer `none`); JSON null means an explicit `None`; a
string passes; any other value fails coercion, naming the field. -/
def optFieldStr (params : List (String × Json)) (key : String) :
    Except String (Option (Option String)) :=
  match params.lookup key with
  | none => .ok none
  | some .null => .ok (some none)
  | some (.str s) => .ok (some (some s))
  | some _ => .error key

/-- Accumulate the value of a decimal digit list; any non-digit fails. -/
def digitsValAux : Nat → List Char → Option Nat
  | acc, [] => some acc
  | acc, c :: rest =>
    if c.isDigit then digitsValAux (acc * 10 + (c.toNat - 48)) rest else none

/-- Integer parsing of a decimal string, with an optional leading minus
sign: the lax string-to-int coercion pydantic applies to `int` fields. -/
def strToInt : String → Option Int :=
  fun s =>
    match s.data with
    | [] => none
    | '-' :: rest =>
      if rest.isEmpty then none else (digitsValAux 0 rest).map (fun n => -(n : Int))
    | l => (digitsValAux 0 l).map (fun n => (n : Int))

/-- Optional `int | None` field: absent stays unset, null is explicit `None`,
ints pass, numeric strings coerce (pydantic lax mode), anything else fails. -/
def optFieldInt (params : List (String × Json)) (key : String) :
    Except String (Option (Option Int)) :=
  match params.lookup key with
  | none => .ok none
  | some .null => .ok (some none)
  | some (.num n) => .ok (some (some n))
  | some (.str s) =>
    match strToInt s with
    | some n => .ok (some (some n))
    | none => .error key
  | some _ => .error key

/-- Coerce every element of a JSON array to a string. -/
def coerceStrList (key : String) : List Json → Except String (List String)
  | [] => .ok []
  | Json.str s :: rest => (coerceStrList key rest).map (fun tail => s :: tail)
  | _ :: _ => .error key

/-- Optional `list[str] | None` field of a pydantic model. -/
def optFieldStrList (params : List (String × Json)) (key : String) :
    Except String (Option (Option (List String))) :=
  match params.lookup key with
  | none => .ok none
  | some .null => .ok (some none)
  | some (.arr elems) => (coerceStrList key elems).map (fun l => some (some l))
  | some _ => .error key

/-- `SearchAppsParams` from `meta_functions/_aipolabs_search_apps.py`: all
three fields are `T | None = None`. The outer `Option` tracks the pydantic fields-set notion: `none` means the field was absent from the input
(unset), `some none` means it was explicitly null. -/
structure SearchAppsParams where
  intent : Option (Option String)
  limit : Option (Option Int)
  offset : Option (Option Int)
deriving DecidableEq, Repr

/-- `SearchFunctionsParams` from `meta_functions/_aipolabs_search_functions.py`. -/
structure SearchFunctionsParams where
  app_names : Option (Option (List String))
  intent : Option (Option String)
  limit : Option (Option Int)
  offset : Option (Option Int)
deriving DecidableEq, Repr

namespace AipolabsSearchApps

/-- Wire name of the search-apps meta function (`_aipolabs_search_apps.py`). -/
def NAME : String := "AIPOLABS_SEARCH_APPS"

/-- The `parameters` object of the published SCHEMA for AIPOLABS_SEARCH_APPS
(`_aipolabs_search_apps.py:22`), with the free-text `description` strings
elided; the structural keys (types, defaults, bounds, required,
additionalProperties) are kept verbatim. -/
def SCHEMA_parameters : Json :=
  .obj
    [("type", .str "object"),
     ("properties", .obj
       [("intent", .obj [("type", .arr [.str "string", .str "null"])]),
        ("limit", .obj
          [("type", .arr [.str "integer", .str "null"]),
           ("default", .num 100),
           ("minimum", .num 1),
           ("maximum", .num 1000)]),
        ("offset", .obj
          [("type", .arr [.str "integer", .str "null"]),
           ("default", .num 0),
           ("minimum", .num 0)])]),
     ("required", .arr [.str "intent", .str "limit", .str "offset"]),
     ("additionalProperties", .bool false)]

/-- `AipolabsSearchApps.validate_params`: pydantic `model_validate` on
`SearchAppsParams`. Unknown keys are ignored (the default pydantic `extra`
behaviour); failing coercions are collected and reported together, naming
each offending field. -/
def validate_params (params : List (String × Json)) : Except PyExc SearchAppsParams :=
  let ri := optFieldStr params "intent"
  let rl := optFieldInt params "limit"
  let ro := optFieldInt params "offset"
  match ri, rl, ro with
  | .ok i, .ok l, .ok o => .ok ⟨i, l, o⟩
  | _, _, _ => .error (.pydanticValidationError (errKey ri ++ errKey rl ++ errKey ro))

end AipolabsSearchApps

namespace AipolabsSearchFunctions

/-- Wire name of the search-functions meta function
(`_aipolabs_search_functions.py`). -/
def NAME : String := "AIPOLABS_SEARCH_FUNCTIONS"

/-- `AipolabsSearchFunctions.validate_params`: pydantic `model_validate` on
`SearchFunctionsParams`. -/
def validate_params (params : List (String × Json)) : Except PyExc SearchFunctionsParams :=
  let ra := optFieldStrList params "app_names"
  let ri := optFieldStr params "intent"
  let rl := optFieldInt params "limit"
  let ro := optFieldInt params "offset"
  match ra, ri, rl, ro with
  | .ok a, .ok i, .ok l, .ok o => .ok ⟨a, i, l, o⟩
  | _, _, _, _ =>
    .error (.pydanticValidationError (errKey ra ++ errKey ri ++ errKey rl ++ errKey ro))

end AipolabsSearchFunctions

namespace AipolabsGetFunctionDefinition

/-- Modelled from the spec: the `_aipolabs_get_function_definition` meta
function module is imported by `_client.py` but absent from the sources;
its wire name is given in the spec (meta-operation wire names, §6). -/
def NAME : String := "AIPOLABS_GET_FUNCTION_DEFINITION"

/-- Validated parameters of the get-function-definition meta function:
a single required `function_name` string. -/
structure GetFunctionDefinitionParams where
  function_name : String
deriving DecidableEq, Repr

/-- Modelled from the spec: the validator of the absent
`_aipolabs_get_function_definition` module requires a `function_name`
string, per the wire-protocol table and the dispatch step for
GetFunctionDefinition. -/
def validate_params (params : List (String × Json)) :
    Except PyExc GetFunctionDefinitionParams :=
  match params.lookup "function_name" with
  | some (.str s) => .ok ⟨s⟩
  | _ => .error (.pydanticValidationError ["function_name"])

end AipolabsGetFunctionDefinition

namespace AipolabsExecuteFunction

/-- Modelled from the spec: the `_aipolabs_execute_function` meta function
module is imported by `_client.py` but absent from the sources; its wire
name is given in the spec (meta-operation wire names, §6). -/
def NAME : String := "AIPOLABS_EXECUTE_FUNCTION"

/-- Validated parameters of the execute-function meta function: the target
function name and the nested argument mapping. -/
structure FunctionExecutionParams where
  function_name : String
  function_arguments : List (String × Json)

/-- Modelled from the spec: the parameter-shape repair step of the absent
execute-function validator (spec §4.3). When the nested-arguments wrapper
key is absent, every key other than `function_name` is moved into a new
`function_arguments` mapping. -/
def fixFunctionParams (params : List (String × Json)) : List (String × Json) :=
  if (params.lookup "function_arguments").isSome then params
  else
    (match params.lookup "function_name" with
     | some fn => [("function_name", fn)]
     | none => []) ++
    [("function_arguments", Json.obj (params.filter (fun kv => kv.1 ≠ "function_name")))]

/-- Modelled from the spec: the validator of the absent
`_aipolabs_execute_function` module — apply the parameter-shape repair,
then require a `function_name` string and a `function_arguments` object. -/
def validate_params (params : List (String × Json)) : Except PyExc FunctionExecutionParams :=
  let fixed := fixFunctionParams params
  let rn : Except String String :=
    match fixed.lookup "function_name" with
    | some (.str s) => .ok s
    | _ => .error "function_name"
  let ra : Except String (List (String × Json)) :=
    match fixed.lookup "function_arguments" with
    | some (.obj fields) => .ok fields
    | _ => .error "function_arguments"
  match rn, ra with
  | .ok n, .ok a => .ok ⟨n, a⟩
  | _, _ => .error (.pydanticValidationError (errKey rn ++ errKey ra))

end AipolabsExecuteFunction

/-- The remote operation a dispatch resolves to, with its validated
parameters: the observable effect of one `handle_function_call` pass before
any HTTP traffic. -/
inductive Action where
  | search_apps (params : SearchAppsParams) : Action
  | search_functions (params : SearchFunctionsParams) : Action
  | get_function_definition (function_name : String) : Action
  | execute_function (function_name : String) (function_parameters : List (String × Json)) : Action

/-- `Aipolabs.handle_function_call` (`_client.py:100`): compare the call name
against the four meta-function names in source order; on a match, validate
the parameters with the validator of that operation and route to the matching
resource call; otherwise fall through to direct execution of `name` with the
raw parameters. -/
def handle_function_call (function_name : String)
    (function_parameters : List (String × Json)) : Except PyExc Action :=
  if function_name = AipolabsSearchApps.NAME then
    (AipolabsSearchApps.validate_params function_parameters).map .search_apps
  else if function_name = AipolabsSearchFunctions.NAME then
    (AipolabsSearchFunctions.validate_params function_parameters).map .search_functions
  else if function_name = AipolabsGetFunctionDefinition.NAME then
    (AipolabsGetFunctionDefinition.validate_params function_parameters).map
      (fun p => .get_function_definition p.function_name)
  else if function_name = AipolabsExecuteFunction.NAME then
    (AipolabsExecuteFunction.validate_params function_parameters).map
      (fun p => .execute_function p.function_name p.function_arguments)
  else
    .ok (.execute_function function_name function_parameters)

/-- Retryability predicate of `retry_config` (`_client.py:47`):
`retry_if_exception_type((ServerError, RateLimitError, UnknownError,
httpx.TimeoutException, httpx.NetworkError))`. -/
def retryable : PyExc → Bool
  | .serverError _ _ _ => true
  | .rateLimitError _ _ _ => true
  | .unknownError _ _ _ => true
  | .timeoutException _ => true
  | .networkError _ => true
  | _ => false

/-- Core loop of the tenacity retry executor as configured by `retry_config`:
`attempt k` is the outcome of the (k+1)-th call of the decorated body, `fuel`
is the number of further attempts `stop_after_attempt` still allows. A
successful call returns at once; a non-retryable exception propagates at
once; a retryable exception is retried while fuel remains and, with the fuel
spent, is re-raised unchanged (`reraise=True`). The first component counts
the calls made. -/
def retryFrom (attempt : Nat → Except PyExc (Option Json)) :
    Nat → Nat → Nat × Except PyExc (Option Json)
  | k, 0 => (k + 1, attempt k)
  | k, fuel + 1 =>
    match attempt k with
    | .ok v => (k + 1, .ok v)
    | .error e =>
      if retryable e then retryFrom attempt (k + 1) fuel else (k + 1, .error e)

/-- A method decorated with `@retry(**retry_config)`: run the attempts with
`stop_after_attempt maxAttempts`, so at most `maxAttempts` calls are made
(and at least one, as in tenacity). -/
def retryCall (maxAttempts : Nat) (attempt : Nat → Except PyExc (Option Json)) :
    Nat × Except PyExc (Option Json) :=
  retryFrom attempt 0 (maxAttempts - 1)

/-- One attempt of a retried client method whose HTTP exchange yields the
given response: the decorated body ends in `_handle_response`. -/
def attemptOf (responses : Nat → Response) (k : Nat) : Except PyExc (Option Json) :=
  handle_response (responses k)

/-- `FunctionExecutionResult` (`types/functions.py:41`): `success : bool`
with optional `data` (`Any | None`) and `error` (`str | None`), both
defaulting to `None`. -/
structure FunctionExecutionResult where
  success : Bool
  data : Option Json
  error : Option String

namespace FunctionExecutionResult

/-- pydantic `model_validate` for `FunctionExecutionResult`: `success` is a
required bool, `data` accepts any value (null meaning `None`), `error` must
be a string or null when present. -/
def model_validate (j : List (String × Json)) : Except PyExc FunctionExecutionResult :=
  let rs : Except String Bool :=
    match j.lookup "success" with
    | some (.bool b) => .ok b
    | _ => .error "success"
  let rd : Except String (Option Json) :=
    match j.lookup "data" with
    | none => .ok none
    | some .null => .ok none
    | some v => .ok (some v)
  let re : Except String (Option String) :=
    match j.lookup "error" with
    | none => .ok none
    | some .null => .ok none
    | some (.str s) => .ok (some s)
    | some _ => .error "error"
  match rs, rd, re with
  | .ok s, .ok d, .ok e => .ok ⟨s, d, e⟩
  | _, _, _ => .error (.pydanticValidationError (errKey rs ++ errKey rd ++ errKey re))

/-- pydantic `model_dump(exclude_none=True)` for `FunctionExecutionResult`:
fields whose value is `None` are omitted from the serialized mapping. -/
def model_dump_exclude_none (r : FunctionExecutionResult) : List (String × Json) :=
  [("success", Json.bool r.success)] ++
  (match r.data with
   | some d => [("data", d)]
   | none => []) ++
  (match r.error with
   | some e => [("error", Json.str e)]
   | none => [])

end FunctionExecutionResult

/-- `App` (`types/apps.py`): search results carry a `name`, a `description`,
and an optional nested list of functions; only the two strings matter to the
claims, and the nested list is kept as raw JSON. -/
structure App where
  name : String
  description : String
  functions : Option Json

namespace App

/-- pydantic `model_validate` for `App`: a mapping with required `name` and
`description` strings; validating a non-mapping value fails outright (as
pydantic does when iteration over a dict hands it a bare string). -/
def model_validate (j : Json) : Except PyExc App :=
  match j with
  | .obj fields =>
    let rn : Except String String :=
      match fields.lookup "name" with
      | some (.str s) => .ok s
      | _ => .error "name"
    let rd : Except String String :=
      match fields.lookup "description" with
      | some (.str s) => .ok s
      | _ => .error "description"
    let rf : Except String (Option Json) :=
      match fields.lookup "functions" with
      | none => .ok none
      | some .null => .ok none
      | some v => .ok (some v)
    match rn, rd, rf with
    | .ok n, .ok d, .ok f => .ok ⟨n, d, f⟩
    | _, _, _ => .error (.pydanticValidationError (errKey rn ++ errKey rd ++ errKey rf))
  | _ => .error (.pydanticValidationError ["model"])

end App

namespace AppsResource

/-- Deserialization tail of `AppsResource.search` (`resource/apps.py:40`):
`data = self._handle_response(response)` followed by
`[App.model_validate(app) for app in data]`. Iterating a list validates each
element; iterating a dict iterates its keys (bare strings, which
`App.model_validate` rejects); iterating a string iterates its characters;
iterating `None`, a number or a bool raises `TypeError`. -/
def searchParse (r : Response) : Except PyExc (List App) := do
  let data ← handle_response r
  match data with
  | some (.arr elems) => elems.mapM App.model_validate
  | some (.obj fields) => (fields.map (fun kv => Json.str kv.1)).mapM App.model_validate
  | some (.str s) => (s.toList.map (fun c => Json.str (String.mk [c]))).mapM App.model_validate
  | _ => .error (.typeError "object is not iterable")

end AppsResource

/-- The state of an `Aipolabs` client after `__init__` (`_client.py:71`):
the credential, the slash-normalized base URL, the hardcoded inference
provider (`self.inference_provider = "openai"`, `_client.py:93`), and the
fixed headers. -/
structure Client where
  api_key : String
  base_url : String
  inference_provider : String
  headers : List (String × String)

/-- URL normalization of `Aipolabs._enforce_trailing_slash`
(`_client.py:184`): append a slash to the path unless one is already
present. -/
def enforceTrailingSlash (url : String) : String :=
  if url.endsWith "/" then url else url ++ "/"

/-- `Aipolabs.__init__` after the credential has been resolved
(`_client.py:83`): store the key, normalize the base URL, fix the inference
provider to `"openai"` (source TODO: currently only openai is supported) and
build the headers. -/
def Client.init (api_key : String) (base_url : String) : Client :=
  { api_key := api_key,
    base_url := enforceTrailingSlash base_url,
    inference_provider := "openai",
    headers := [("Content-Type", "application/json"), ("x-api-key", api_key)] }

/-- An outbound HTTP request as the client builds it. -/
structure Request where
  method : String
  path : String
  queryParams : List (String × String)

/-- The request issued by `Aipolabs.get_function_definition`
(`_client.py:159`): GET `functions/{function_name}` with the own
`inference_provider` attribute of the client as the only query parameter. -/
def get_function_definition_request (c : Client) (function_name : String) : Request :=
  { method := "GET",
    path := "functions/" ++ function_name,
    queryParams := [("inference_provider", c.inference_provider)] }

/-- Modelled from the spec: the fixed maximum attempt count of the retry
policy. The `_constants` module that defines `DEFAULT_MAX_RETRIES` is
imported by `_client.py` but absent from the sources; the value 3 is the one
the test suite observes (three mocked 500 responses exhaust the retries of
`test_execute_function_retry_exhausted`, and two 500s followed by a 200
succeed on the third and final attempt). -/
def DEFAULT_MAX_RETRIES : Nat := 3

/-- C1: for every HTTP response, `_handle_response` classifies the status
code into exactly the specified outcome — 200 returns the parsed JSON body,
400 raises ValidationError, 401 AuthenticationError, 403 PermissionError,
404 NotFoundError, 429 RateLimitError, every 5xx ServerError, and any other
status UnknownError with the offending status code embedded in its
message. -/
theorem c1_handle_response_classifies_status (r : Response) :
    (r.status = 200 → handle_response r = .ok r.body) ∧
    (r.status = 400 →
      handle_response r = .error (.validationError (errorMessage r) r.status r.text)) ∧
    (r.status = 401 →
      handle_response r = .error (.authenticationError (errorMessage r) r.status r.text)) ∧
    (r.status = 403 →
      handle_response r = .error (.permissionError (errorMessage r) r.status r.text)) ∧
    (r.status = 404 →
      handle_response r = .error (.notFoundError (errorMessage r) r.status r.text)) ∧
    (r.status = 429 →
      handle_response r = .error (.rateLimitError (errorMessage r) r.status r.text)) ∧
    (500 ≤ r.status → r.status < 600 →
      handle_response r = .error (.serverError (errorMessage r) r.status r.text)) ∧
    (r.status ≠ 200 → r.status ≠ 400 → r.status ≠ 401 → r.status ≠ 403 → r.status ≠ 404 →
      r.status ≠ 429 → ¬(500 ≤ r.status ∧ r.status < 600) →
      handle_response r =
        .error (.unknownError ("Unexpected error occurred. Status code: " ++ toString r.status)
          r.status r.text)) := by
  refine ⟨?_, ?_, ?_, ?_, ?_, ?_, ?_, ?_⟩
  · intro h; simp [handle_response, h]
  · intro h; simp [handle_response, h]
  · intro h; simp [handle_response, h]
  · intro h; simp [handle_response, h]
  · intro h; simp [handle_response, h]
  · intro h; simp [handle_response, h]
  · intro h1 h2
    simp only [handle_response]
    rw [if_neg (by omega), if_neg (by omega), if_neg (by omega), if_neg (by omega),
      if_neg (by omega), if_neg (by omega), if_pos ⟨h1, h2⟩]
  · intro h200 h400 h401 h403 h404 h429 h5xx
    simp [handle_response, h200, h400, h401, h403, h404, h429, h5xx]

/-- Witness for C1 at a concrete 418 response: the catch-all branch raises
UnknownError with the status code in the message. -/
theorem c1_witness :
    handle_response ⟨418, none, "teapot"⟩ =
      .error (.unknownError ("Unexpected error occurred. Status code: " ++ toString 418)
        418 "teapot") :=
  (c1_handle_response_classifies_status ⟨418, none, "teapot"⟩).2.2.2.2.2.2.2
    (by decide) (by decide) (by decide) (by decide) (by decide) (by decide) (by decide)

/-- C2: for every call name distinct from the four meta-function names and
every parameter mapping, `handle_function_call` routes to direct execution
with the name as the function identifier and the raw parameters as its
arguments; no local function-not-found error exists on this path. -/
theorem c2_unrecognized_name_is_direct_execution
    (function_name : String) (function_parameters : List (String × Json))
    (h1 : function_name ≠ AipolabsSearchApps.NAME)
    (h2 : function_name ≠ AipolabsSearchFunctions.NAME)
    (h3 : function_name ≠ AipolabsGetFunctionDefinition.NAME)
    (h4 : function_name ≠ AipolabsExecuteFunction.NAME) :
    handle_function_call function_name function_parameters =
      .ok (.execute_function function_name function_parameters) := by
  simp [handle_function_call, h1, h2, h3, h4]

/-- Witness for C2: a third-party function name goes straight to direct
execution with its raw parameters. -/
theorem c2_witness :
    handle_function_call "BRAVE_SEARCH__WEB_SEARCH" [("query", Json.str "test")] =
      .ok (.execute_function "BRAVE_SEARCH__WEB_SEARCH" [("query", Json.str "test")]) :=
  c2_unrecognized_name_is_direct_execution "BRAVE_SEARCH__WEB_SEARCH"
    [("query", Json.str "test")] (by decide) (by decide) (by decide) (by decide)

/-- A 429 response makes `_handle_response` raise `RateLimitError`. -/
theorem handle_response_429 (r : Response) (h : r.status = 429) :
    handle_response r = .error (.rateLimitError (errorMessage r) r.status r.text) := by
  simp [handle_response, h]

/-- A 5xx response makes `_handle_response` raise `ServerError`. -/
theorem handle_response_5xx (r : Response) (h1 : 500 ≤ r.status) (h2 : r.status < 600) :
    handle_response r = .error (.serverError (errorMessage r) r.status r.text) := by
  simp only [handle_response]
  rw [if_neg (by omega), if_neg (by omega), if_neg (by omega), if_neg (by omega),
    if_neg (by omega), if_neg (by omega), if_pos ⟨h1, h2⟩]

/-- When every attempt within reach of the fuel raises a retryable exception,
the retry loop performs every remaining attempt and ends with the outcome of
the last one, unchanged. -/
theorem retryFrom_all_retryable (attempt : Nat → Except PyExc (Option Json)) :
    ∀ (fuel k : Nat),
    (∀ i, i ≤ k + fuel → ∃ e, attempt i = .error e ∧ retryable e = true) →
    retryFrom attempt k fuel = (k + fuel + 1, attempt (k + fuel)) := by
  intro fuel
  induction fuel with
  | zero =>
    intro k _
    simp [retryFrom]
  | succ n ih =>
    intro k h
    obtain ⟨e, he, hr⟩ := h k (by omega)
    have ih2 := ih (k + 1) (fun i hi => h i (by omega))
    have harith : k + 1 + n = k + (n + 1) := by omega
    rw [retryFrom, he]
    simp only [hr, if_true]
    rw [ih2, harith]

/-- A non-retryable exception on an attempt stops the loop at once and is
raised as is. -/
theorem retryFrom_nonretryable (attempt : Nat → Except PyExc (Option Json))
    (k fuel : Nat) (e : PyExc) (he : attempt k = .error e) (hr : retryable e = false) :
    retryFrom attempt k fuel = (k + 1, .error e) := by
  cases fuel with
  | zero => rw [retryFrom, he]
  | succ n => rw [retryFrom, he]; simp [hr]

/-- C3: when every attempt of a retried operation yields a 429 or a 5xx
response, the number of HTTP calls equals exactly `DEFAULT_MAX_RETRIES`, and
the error finally raised is the taxonomy entry for the status of the last attempt
— `RateLimitError` for 429, `ServerError` for 5xx — re-raised unchanged from
that attempt. -/
theorem c3_retry_exhaustion (responses : Nat → Response)
    (hall : ∀ i, i < DEFAULT_MAX_RETRIES →
      (responses i).status = 429 ∨ (500 ≤ (responses i).status ∧ (responses i).status < 600)) :
    (retryCall DEFAULT_MAX_RETRIES (attemptOf responses)).1 = DEFAULT_MAX_RETRIES ∧
    (retryCall DEFAULT_MAX_RETRIES (attemptOf responses)).2 =
      handle_response (responses (DEFAULT_MAX_RETRIES - 1)) ∧
    ((responses (DEFAULT_MAX_RETRIES - 1)).status = 429 →
      (retryCall DEFAULT_MAX_RETRIES (attemptOf responses)).2 =
        .error (.rateLimitError (errorMessage (responses (DEFAULT_MAX_RETRIES - 1)))
          (responses (DEFAULT_MAX_RETRIES - 1)).status
          (responses (DEFAULT_MAX_RETRIES - 1)).text)) ∧
    (500 ≤ (responses (DEFAULT_MAX_RETRIES - 1)).status →
      (retryCall DEFAULT_MAX_RETRIES (attemptOf responses)).2 =
        .error (.serverError (errorMessage (responses (DEFAULT_MAX_RETRIES - 1)))
          (responses (DEFAULT_MAX_RETRIES - 1)).status
          (responses (DEFAULT_MAX_RETRIES - 1)).text)) := by
  have key : retryFrom (attemptOf responses) 0 (DEFAULT_MAX_RETRIES - 1) =
      (DEFAULT_MAX_RETRIES, attemptOf responses (DEFAULT_MAX_RETRIES - 1)) := by
    have := retryFrom_all_retryable (attemptOf responses) (DEFAULT_MAX_RETRIES - 1) 0
      (fun i hi => by
        rcases hall i (by simp [DEFAULT_MAX_RETRIES] at hi ⊢; omega) with h | ⟨h5, h6⟩
        · exact ⟨_, handle_response_429 (responses i) h, by simp [retryable]⟩
        · exact ⟨_, handle_response_5xx (responses i) h5 h6, by simp [retryable]⟩)
    simpa [DEFAULT_MAX_RETRIES] using this
  refine ⟨?_, ?_, ?_, ?_⟩
  · rw [retryCall, key]
  · rw [retryCall, key]; rfl
  · intro h; rw [retryCall, key]
    exact handle_response_429 (responses (DEFAULT_MAX_RETRIES - 1)) h
  · intro h5
    have h6 : (responses (DEFAULT_MAX_RETRIES - 1)).status < 600 := by
      rcases hall (DEFAULT_MAX_RETRIES - 1) (by simp [DEFAULT_MAX_RETRIES]) with h | ⟨_, h6⟩
      · omega
      · exact h6
    rw [retryCall, key]
    exact handle_response_5xx (responses (DEFAULT_MAX_RETRIES - 1)) h5 h6

/-- Witness for C3: three straight 500 responses exhaust the three attempts
and the final error is the ServerError of the last attempt. -/
theorem c3_witness :
    (retryCall DEFAULT_MAX_RETRIES (attemptOf fun _ => ⟨500, none, "boom"⟩)).1 =
      DEFAULT_MAX_RETRIES ∧
    (retryCall DEFAULT_MAX_RETRIES (attemptOf fun _ => ⟨500, none, "boom"⟩)).2 =
      .error (.serverError "boom" 500 "boom") := by
  have h := c3_retry_exhaustion (fun _ => ⟨500, none, "boom"⟩)
    (fun i _ => Or.inr ⟨(by decide : (500 : Nat) ≤ 500), (by decide : (500 : Nat) < 600)⟩)
  exact ⟨h.1, h.2.2.2 (by decide : (500 : Nat) ≤ 500)⟩

/-- A 400 response makes `_handle_response` raise `ValidationError`. -/
theorem handle_response_400 (r : Response) (h : r.status = 400) :
    handle_response r = .error (.validationError (errorMessage r) r.status r.text) := by
  simp [handle_response, h]

/-- A 401 response makes `_handle_response` raise `AuthenticationError`. -/
theorem handle_response_401 (r : Response) (h : r.status = 401) :
    handle_response r = .error (.authenticationError (errorMessage r) r.status r.text) := by
  simp [handle_response, h]

/-- A 403 response makes `_handle_response` raise `PermissionError`. -/
theorem handle_response_403 (r : Response) (h : r.status = 403) :
    handle_response r = .error (.permissionError (errorMessage r) r.status r.text) := by
  simp [handle_response, h]

/-- A 404 response makes `_handle_response` raise `NotFoundError`. -/
theorem handle_response_404 (r : Response) (h : r.status = 404) :
    handle_response r = .error (.notFoundError (errorMessage r) r.status r.text) := by
  simp [handle_response, h]

/-- C4: a 400, 401, 403 or 404 response on the first attempt of a retried
operation stops the loop after exactly one HTTP call, and the corresponding
taxonomy error — never retried — is raised at once. -/
theorem c4_client_errors_not_retried (responses : Nat → Response)
    (h : (responses 0).status = 400 ∨ (responses 0).status = 401 ∨
      (responses 0).status = 403 ∨ (responses 0).status = 404) :
    (retryCall DEFAULT_MAX_RETRIES (attemptOf responses)).1 = 1 ∧
    (retryCall DEFAULT_MAX_RETRIES (attemptOf responses)).2 = handle_response (responses 0) ∧
    ((responses 0).status = 400 →
      handle_response (responses 0) =
        .error (.validationError (errorMessage (responses 0)) (responses 0).status
          (responses 0).text)) ∧
    ((responses 0).status = 401 →
      handle_response (responses 0) =
        .error (.authenticationError (errorMessage (responses 0)) (responses 0).status
          (responses 0).text)) ∧
    ((responses 0).status = 403 →
      handle_response (responses 0) =
        .error (.permissionError (errorMessage (responses 0)) (responses 0).status
          (responses 0).text)) ∧
    ((responses 0).status = 404 →
      handle_response (responses 0) =
        .error (.notFoundError (errorMessage (responses 0)) (responses 0).status
          (responses 0).text)) := by
  have hex : ∃ e, handle_response (responses 0) = .error e ∧ retryable e = false := by
    rcases h with h | h | h | h
    · exact ⟨_, handle_response_400 _ h, by simp [retryable]⟩
    · exact ⟨_, handle_response_401 _ h, by simp [retryable]⟩
    · exact ⟨_, handle_response_403 _ h, by simp [retryable]⟩
    · exact ⟨_, handle_response_404 _ h, by simp [retryable]⟩
  obtain ⟨e, he, hr⟩ := hex
  have key : retryFrom (attemptOf responses) 0 (DEFAULT_MAX_RETRIES - 1) = (1, .error e) :=
    retryFrom_nonretryable (attemptOf responses) 0 (DEFAULT_MAX_RETRIES - 1) e he hr
  refine ⟨?_, ?_, fun hh => handle_response_400 _ hh, fun hh => handle_response_401 _ hh,
    fun hh => handle_response_403 _ hh, fun hh => handle_response_404 _ hh⟩
  · rw [retryCall, key]
  · rw [retryCall, key]; exact he.symm

/-- Witness for C4: one 404 response, one call, NotFoundError at once. -/
theorem c4_witness :
    (retryCall DEFAULT_MAX_RETRIES
      (attemptOf fun _ => ⟨404, some (.obj [("message", .str "Function not found")]), "nf"⟩)).1 =
        1 ∧
    (retryCall DEFAULT_MAX_RETRIES
      (attemptOf fun _ => ⟨404, some (.obj [("message", .str "Function not found")]), "nf"⟩)).2 =
        .error (.notFoundError "Function not found" 404 "nf") := by
  have h := c4_client_errors_not_retried
    (fun _ => ⟨404, some (.obj [("message", .str "Function not found")]), "nf"⟩)
    (Or.inr (Or.inr (Or.inr (by decide))))
  exact ⟨h.1, h.2.1.trans (h.2.2.2.2.2 (by decide))⟩

/-- C5: an ExecuteFunction dispatch whose raw parameters lack the
nested-arguments wrapper has the wrapper synthesized before validation, by
moving all keys other than `function_name` into a new `function_arguments`
mapping; in particular the flattened example call is equivalent to its
wrapped form and resolves to executing "F" with arguments x=1, y=2. -/
theorem c5_execute_parameter_repair :
    (∀ (params : List (String × Json)) (fn : Json),
      params.lookup "function_arguments" = none →
      params.lookup "function_name" = some fn →
      AipolabsExecuteFunction.fixFunctionParams params =
        [("function_name", fn),
         ("function_arguments", Json.obj (params.filter (fun kv => kv.1 ≠ "function_name")))]) ∧
    handle_function_call AipolabsExecuteFunction.NAME
        [("function_name", .str "F"), ("x", .num 1), ("y", .num 2)] =
      handle_function_call AipolabsExecuteFunction.NAME
        [("function_name", .str "F"),
         ("function_arguments", .obj [("x", .num 1), ("y", .num 2)])] ∧
    handle_function_call AipolabsExecuteFunction.NAME
        [("function_name", .str "F"), ("x", .num 1), ("y", .num 2)] =
      .ok (.execute_function "F" [("x", .num 1), ("y", .num 2)]) := by
  refine ⟨?_, rfl, rfl⟩
  intro params fn h1 h2
  simp [AipolabsExecuteFunction.fixFunctionParams, h1, h2]

/-- Witness for C5: the repair step on the flattened example input yields
exactly the wrapped form. -/
theorem c5_witness :
    AipolabsExecuteFunction.fixFunctionParams
        [("function_name", .str "F"), ("x", .num 1), ("y", .num 2)] =
      [("function_name", .str "F"),
       ("function_arguments", .obj [("x", .num 1), ("y", .num 2)])] :=
  c5_execute_parameter_repair.1
    [("function_name", .str "F"), ("x", .num 1), ("y", .num 2)] (.str "F") rfl rfl

/-- Field access on a JSON object; anything else has no fields. -/
def jsonField (j : Json) (key : String) : Option Json :=
  match j with
  | .obj fields => fields.lookup key
  | _ => none

/-- C6 counterexample: the search-apps validator accepts a `limit` of 2000 —
outside the claimed [1, 1000] bounds — without raising, and returns it
unchanged, so bounds are not enforced by `validate_params`. -/
theorem c6_counterexample :
    AipolabsSearchApps.validate_params [("limit", Json.num 2000)] =
      .ok ⟨none, some (some 2000), none⟩ := rfl

/-- C6 amended: `validate_params` substitutes no numeric defaults (absent
optional fields stay unset, i.e. effectively None — not 100/0) and enforces
no bounds; only type-coercion failures raise, identifying the offending
field. The 100/0 defaults and the limit/offset bounds appear only in the
published SCHEMA document. -/
theorem c6_amended_validator_and_schema :
    AipolabsSearchApps.validate_params [] = .ok ⟨none, none, none⟩ ∧
    AipolabsSearchApps.validate_params [("intent", Json.str "news")] =
      .ok ⟨some (some "news"), none, none⟩ ∧
    AipolabsSearchApps.validate_params [("offset", Json.num (-5))] =
      .ok ⟨none, none, some (some (-5))⟩ ∧
    AipolabsSearchApps.validate_params [("limit", Json.str "abc")] =
      .error (.pydanticValidationError ["limit"]) ∧
    (jsonField AipolabsSearchApps.SCHEMA_parameters "properties").bind
      (fun p => (jsonField p "limit").bind (fun l => jsonField l "default")) =
        some (.num 100) ∧
    (jsonField AipolabsSearchApps.SCHEMA_parameters "properties").bind
      (fun p => (jsonField p "limit").bind (fun l => jsonField l "minimum")) =
        some (.num 1) ∧
    (jsonField AipolabsSearchApps.SCHEMA_parameters "properties").bind
      (fun p => (jsonField p "limit").bind (fun l => jsonField l "maximum")) =
        some (.num 1000) ∧
    (jsonField AipolabsSearchApps.SCHEMA_parameters "properties").bind
      (fun p => (jsonField p "offset").bind (fun o => jsonField o "default")) =
        some (.num 0) ∧
    (jsonField AipolabsSearchApps.SCHEMA_parameters "properties").bind
      (fun p => (jsonField p "offset").bind (fun o => jsonField o "minimum")) =
        some (.num 0) :=
  ⟨rfl, rfl, rfl, rfl, rfl, rfl, rfl, rfl, rfl⟩

/-- C7 counterexample: the `inference_provider` query parameter sent by
`get_function_definition` is the fixed value "openai"; in particular it is
not "anthropic", even though the selector enum of the spec offers it — there is
no caller-supplied selector to pass through. -/
theorem c7_counterexample :
    (get_function_definition_request (Client.init "test_key" "https://api.aipolabs.xyz/v1")
        "TEST_FUNCTION").queryParams.lookup "inference_provider" = some "openai" ∧
    ¬((get_function_definition_request (Client.init "test_key" "https://api.aipolabs.xyz/v1")
        "TEST_FUNCTION").queryParams.lookup "inference_provider" = some "anthropic") :=
  ⟨rfl, by decide⟩

/-- C7 amended: every client built by `__init__` carries the fixed
`inference_provider` value "openai", and every `get_function_definition`
request sends exactly that attribute as the `inference_provider` query
parameter — the selector is not caller-suppliable in this version. -/
theorem c7_amended_fixed_provider (api_key base_url function_name : String) :
    (Client.init api_key base_url).inference_provider = "openai" ∧
    get_function_definition_request (Client.init api_key base_url) function_name =
      { method := "GET",
        path := "functions/" ++ function_name,
        queryParams := [("inference_provider", "openai")] } :=
  ⟨rfl, rfl⟩

/-- Membership in the HTTP-status error taxonomy: the errors
`_handle_response` raises from a status code. -/
def isHttpStatusError : PyExc → Bool
  | .validationError _ _ _ => true
  | .authenticationError _ _ _ => true
  | .permissionError _ _ _ => true
  | .notFoundError _ _ _ => true
  | .rateLimitError _ _ _ => true
  | .serverError _ _ _ => true
  | .unknownError _ _ _ => true
  | _ => false

/-- C8 counterexample: a 200 response whose body is empty or malformed JSON
is returned by `_handle_response` as a plain success with payload None — no
deserialization error is raised at that layer, contradicting the claim that
such a body is never silently coerced to a default result. -/
theorem c8_counterexample :
    handle_response ⟨200, none, "not valid json"⟩ = .ok none := rfl

/-- C8 amended: `_handle_response` silently returns None for a 200 with an
empty or malformed body; in `AppsResource.search` that None then fails with
an untyped TypeError (iterating None), while a schema-mismatched 200 body
fails with a pydantic validation error naming the missing field — both
distinct from the HTTP-status taxonomy — and a well-formed body parses into
the declared result type. -/
theorem c8_amended_deserialization :
    handle_response ⟨200, none, "garbage"⟩ = .ok none ∧
    AppsResource.searchParse ⟨200, none, "garbage"⟩ =
      .error (.typeError "object is not iterable") ∧
    AppsResource.searchParse ⟨200, some (.arr [.obj [("name", .str "Test App")]]), "b"⟩ =
      .error (.pydanticValidationError ["description"]) ∧
    isHttpStatusError (.pydanticValidationError ["description"]) = false ∧
    isHttpStatusError (.typeError "object is not iterable") = false ∧
    AppsResource.searchParse
        ⟨200,
         some (.arr [.obj [("name", .str "Test App"), ("description", .str "Test Description")]]),
         "b"⟩ =
      .ok [⟨"Test App", "Test Description", none⟩] :=
  ⟨rfl, rfl, rfl, rfl, rfl, rfl⟩

/-- A mapping without an `error` entry cannot have both `data` and `error`
entries. -/
theorem not_both_of_no_error (l : List (String × Json)) (h : l.lookup "error" = none) :
    ¬(((l.lookup "data").isSome) ∧ ((l.lookup "error").isSome)) := by
  intro hb
  rw [h] at hb
  exact absurd hb.2 (by decide)

/-- A mapping without a `data` entry cannot have both `data` and `error`
entries. -/
theorem not_both_of_no_data (l : List (String × Json)) (h : l.lookup "data" = none) :
    ¬(((l.lookup "data").isSome) ∧ ((l.lookup "error").isSome)) := by
  intro hb
  rw [h] at hb
  exact absurd hb.1 (by decide)

/-- C9: round-trip of `FunctionExecutionResult` — deserializing
`{success: true, data: X}` and re-serializing with `exclude_none` omits
`error`, deserializing `{success: false, error: Y}` omits `data`, and in
neither round-tripped result are `data` and `error` both present. -/
theorem c9_function_execution_result_roundtrip (X : Json) (Y : String) :
    (∃ r1, FunctionExecutionResult.model_validate [("success", .bool true), ("data", X)] =
        .ok r1 ∧
      r1.model_dump_exclude_none.lookup "error" = none ∧
      r1.model_dump_exclude_none.lookup "success" = some (.bool true) ∧
      ¬((r1.model_dump_exclude_none.lookup "data").isSome ∧
        (r1.model_dump_exclude_none.lookup "error").isSome)) ∧
    (∃ r2, FunctionExecutionResult.model_validate [("success", .bool false), ("error", .str Y)] =
        .ok r2 ∧
      r2.model_dump_exclude_none.lookup "data" = none ∧
      r2.model_dump_exclude_none.lookup "error" = some (.str Y) ∧
      ¬((r2.model_dump_exclude_none.lookup "data").isSome ∧
        (r2.model_dump_exclude_none.lookup "error").isSome)) := by
  constructor
  · cases X <;> exact ⟨_, rfl, rfl, rfl, not_both_of_no_error _ rfl⟩
  · exact ⟨_, rfl, rfl, rfl, not_both_of_no_data _ rfl⟩

/-- C10: the meta-function validators ignore unknown top-level keys —
validation succeeds whenever the declared fields that are present coerce,
regardless of extra keys — and in particular `{"query": "test"}` validates
as a parameter object with every field unset. -/
theorem c10_validators_drop_unknown_keys :
    (∀ params : List (String × Json),
      (∃ a, optFieldStr params "intent" = .ok a) →
      (∃ b, optFieldInt params "limit" = .ok b) →
      (∃ c, optFieldInt params "offset" = .ok c) →
      ∃ p, AipolabsSearchApps.validate_params params = .ok p) ∧
    (∀ params : List (String × Json),
      (∃ a, optFieldStrList params "app_names" = .ok a) →
      (∃ b, optFieldStr params "intent" = .ok b) →
      (∃ c, optFieldInt params "limit" = .ok c) →
      (∃ d, optFieldInt params "offset" = .ok d) →
      ∃ p, AipolabsSearchFunctions.validate_params params = .ok p) ∧
    AipolabsSearchApps.validate_params [("query", Json.str "test")] = .ok ⟨none, none, none⟩ ∧
    AipolabsSearchFunctions.validate_params [("query", Json.str "test")] =
      .ok ⟨none, none, none, none⟩ := by
  refine ⟨?_, ?_, rfl, rfl⟩
  · rintro params ⟨a, ha⟩ ⟨b, hb⟩ ⟨c, hc⟩
    exact ⟨⟨a, b, c⟩, by simp [AipolabsSearchApps.validate_params, ha, hb, hc]⟩
  · rintro params ⟨a, ha⟩ ⟨b, hb⟩ ⟨c, hc⟩ ⟨d, hd⟩
    exact ⟨⟨a, b, c, d⟩, by simp [AipolabsSearchFunctions.validate_params, ha, hb, hc, hd]⟩

/-- Witness for C10: a mapping with only an unknown key validates. -/
theorem c10_witness :
    ∃ p, AipolabsSearchApps.validate_params [("query", Json.str "test")] = .ok p :=
  c10_validators_drop_unknown_keys.1 [("query", Json.str "test")]
    ⟨none, rfl⟩ ⟨none, rfl⟩ ⟨none, rfl⟩

end Aipolabs
